import Mathlib

/-!
Verification of the mesh-fairing operator layer (`operators.py`).

The two worker threads (`MESH_OT_fair_vertices_internal.WorkerThread.run` and
`SCULPT_OT_fair_vertices_internal.WorkerThread.run`), the two modal handlers,
and the sculpt-mode `invoke` are embedded as pure Lean functions producing an
event trace together with the cancellation-flag values observed at each
checkpoint.  Components that live outside `operators.py` (the `types` and
`geometry` modules) are modelled from the specification where their behaviour
matters; the outcome of a `geometry.fair` call is treated as an oracle boolean
supplied in the run input.
-/

/-- Modelled from the spec: `types.Continuity`, the ordinal enumeration
POSITION = 1, TANGENT = 2, CURVATURE = 3 (the source `types.py` is not
available; `operators.py` accesses members `POS` and `.value`). -/
inductive Continuity where
  | POS
  | TAN
  | CURV
deriving DecidableEq

/-- Numeric order carried by a `Continuity` member, as in the spec. -/
def Continuity.value : Continuity → Nat
  | .POS => 1
  | .TAN => 2
  | .CURV => 3

/-- Modelled from the spec: `types.VertexWeight` enumeration. -/
inductive VertexWeight where
  | UNIFORM
  | VORONOI
deriving DecidableEq

/-- Modelled from the spec: `types.LoopWeight` enumeration. -/
inductive LoopWeight where
  | UNIFORM
  | COTAN
deriving DecidableEq

/-- Observable steps performed by a worker thread, in program order. -/
inductive Event where
  | setStatus (label : String)
  | determineAffected
  | triangulateFaces (faces : Finset Nat)
  | fairCall (affected : List Nat) (order : Nat)
      (vw : VertexWeight) (lw : LoopWeight)
  | cancelSelf
  | commitMesh
deriving DecidableEq

/-- Modelled from the spec: `geometry.get_boundary_faces` returns the subset
of `faces` sharing at least one edge with a face outside the set.  The face
adjacency of the mesh is given by `adj` (faces sharing an edge). -/
def getBoundaryFaces (adj : Nat → Finset Nat) (faces : Finset Nat) :
    Finset Nat :=
  faces.filter (fun f => ∃ g ∈ adj f, g ∉ faces)

/-- Modelled from the spec: `geometry.expand_faces` grows a face set outward
by the given number of breadth-first rings over face adjacency through shared
edges; zero rings returns the input unchanged. -/
def expandFaces (adj : Nat → Finset Nat) (faces : Finset Nat) :
    Nat → Finset Nat
  | 0 => faces
  | k + 1 => expandFaces adj (faces ∪ faces.biUnion adj) k

/-- Input of one edit-mode worker-thread run.  `selected` is the affected
vertex list, `linkFaces` gives the faces adjacent to a vertex, `faceAdj` the
face-adjacency of the mesh, `preFairOk` and `fairOk` are the results the two
`geometry.fair` calls would return, and `ext k` tells whether an external
`cancel()` arrives before the worker's k-th `is_cancelled()` checkpoint. -/
structure MeshInput where
  continuity : Continuity
  triangulate : Bool
  selected : List Nat
  linkFaces : Nat → Finset Nat
  faceAdj : Nat → Finset Nat
  preFairOk : Bool
  fairOk : Bool
  ext : Nat → Bool

/-- Face set the edit-mode worker passes to `bmesh.ops.triangulate`:
the faces linked to affected vertices, united with the expansion of the
boundary of that face set by `continuity.value - 1` rings. -/
def involvedFaces (mi : MeshInput) : Finset Nat :=
  let adjF := mi.selected.toFinset.biUnion mi.linkFaces
  adjF ∪ expandFaces mi.faceAdj (getBoundaryFaces mi.faceAdj adjF)
    (mi.continuity.value - 1)

/-- The spec's formula for the region to retriangulate: faces adjacent to
affected vertices, unioned with the `continuity_order - 1`-ring expansion of
the boundary faces of that adjacent-face set. -/
def specTriangulationRegion (mi : MeshInput) : Finset Nat :=
  (mi.selected.toFinset.biUnion mi.linkFaces) ∪
    expandFaces mi.faceAdj
      (getBoundaryFaces mi.faceAdj (mi.selected.toFinset.biUnion mi.linkFaces))
      (mi.continuity.value - 1)

/-- Result of a worker-thread run of the edit-mode operator: the event trace,
the cancellation-flag value observed at each guarded checkpoint, and the
final flag value. -/
structure MeshRunResult where
  events : List Event
  cDetermine : Bool
  cTriangulate : Bool
  cPreFair : Bool
  cFair : Bool
  cancelled : Bool

/-- Embedding of `MESH_OT_fair_vertices_internal.WorkerThread.run`.  The four
`is_cancelled()` guards are checkpoints 0..3; the flag is the OR of the
external cancellations seen so far with the worker's own `cancel()` calls
after a failed fairing pass.  The final mesh-update step of this worker is
not guarded. -/
def meshRun (mi : MeshInput) : MeshRunResult :=
  let c1 := mi.ext 0
  let c2 := c1 || mi.ext 1
  let c3 := c2 || mi.ext 2
  let c3a := c3 || (!c3 && !mi.preFairOk)
  let c4 := c3a || mi.ext 3
  let c4a := c4 || (!c4 && !mi.fairOk)
  { events :=
      [Event.setStatus "Initializing BMesh"]
      ++ (if c1 then [] else
            [Event.setStatus "Determining which vertices are affected",
             Event.determineAffected])
      ++ (if !c2 && mi.triangulate then
            [Event.setStatus "Triangulating involved faces",
             Event.triangulateFaces (involvedFaces mi)] else [])
      ++ (if c3 then [] else
            [Event.setStatus "[Pre-Fairing]",
             Event.fairCall mi.selected Continuity.POS.value
               VertexWeight.UNIFORM LoopWeight.UNIFORM]
            ++ (if mi.preFairOk then [] else [Event.cancelSelf]))
      ++ (if c4 then [] else
            [Event.setStatus "[Fairing]",
             Event.fairCall mi.selected mi.continuity.value
               VertexWeight.VORONOI LoopWeight.COTAN]
            ++ (if mi.fairOk then [] else [Event.cancelSelf]))
      ++ [Event.setStatus "Updating the mesh", Event.commitMesh],
    cDetermine := c1,
    cTriangulate := c2,
    cPreFair := c3,
    cFair := c4,
    cancelled := c4a }

/-- The mask threshold 0.5 as a rational in normal form (numerator 1,
denominator 2), so that comparisons against it reduce; it equals 1/2, see
`half_eq_one_div_two`. -/
def half : ℚ := ⟨1, 2, by decide, Nat.coprime_one_left 2⟩

/-- Affected-vertex list of the sculpt-mode worker: with no paint-mask layer
the list stays empty; otherwise a vertex is kept when its mask value is at
least one half (mask inverted) or at most one half (mask not inverted). -/
def sculptAffected (verts : List Nat) (mask : Option (Nat → ℚ))
    (invert : Bool) : List Nat :=
  match mask with
  | none => []
  | some m =>
      verts.filter (fun v =>
        (invert && decide (half ≤ m v)) ||
        (!invert && decide (m v ≤ half)))

/-- Input of one sculpt-mode worker-thread run. -/
structure SculptInput where
  continuity : Continuity
  invertMask : Bool
  verts : List Nat
  mask : Option (Nat → ℚ)
  preFairOk : Bool
  fairOk : Bool
  bmValid : Bool
  ext : Nat → Bool

/-- Result of a sculpt-mode worker-thread run. -/
structure SculptRunResult where
  events : List Event
  cDetermine : Bool
  cEmptyCheck : Bool
  cPreFair : Bool
  cFair : Bool
  cCommit : Bool
  cancelled : Bool

/-- Embedding of `SCULPT_OT_fair_vertices_internal.WorkerThread.run`.  The
five `is_cancelled()` guards are checkpoints 0..4; the worker cancels itself
when the affected list is empty and after a failed fairing pass, and the
final commit runs only when not cancelled and the BMesh is still valid. -/
def sculptRun (si : SculptInput) : SculptRunResult :=
  let av := sculptAffected si.verts si.mask si.invertMask
  let c1 := si.ext 0
  let c2 := c1 || si.ext 1
  let c2a := c2 || (!c2 && (av.length == 0))
  let c3 := c2a || si.ext 2
  let c3a := c3 || (!c3 && !si.preFairOk)
  let c4 := c3a || si.ext 3
  let c4a := c4 || (!c4 && !si.fairOk)
  let c5 := c4a || si.ext 4
  { events :=
      [Event.setStatus "Initializing BMesh"]
      ++ (if c1 then [] else
            [Event.setStatus "Determining which vertices are affected",
             Event.determineAffected])
      ++ (if !c2 && (av.length == 0) then [Event.cancelSelf] else [])
      ++ (if c3 then [] else
            [Event.setStatus "[Pre-Fairing]",
             Event.fairCall av Continuity.POS.value
               VertexWeight.UNIFORM LoopWeight.UNIFORM]
            ++ (if si.preFairOk then [] else [Event.cancelSelf]))
      ++ (if c4 then [] else
            [Event.setStatus "[Fairing]",
             Event.fairCall av si.continuity.value
               VertexWeight.VORONOI LoopWeight.COTAN]
            ++ (if si.fairOk then [] else [Event.cancelSelf]))
      ++ (if c5 then [] else
            [Event.setStatus "Updating the mesh"]
            ++ (if si.bmValid then [Event.commitMesh] else [])),
    cDetermine := c1,
    cEmptyCheck := c2,
    cPreFair := c3,
    cFair := c4,
    cCommit := c5,
    cancelled := c5 }

/-- A plain edit-mode run input: one selected vertex, no external
cancellation, both fairing passes succeed, no triangulation. -/
def miPlain : MeshInput where
  continuity := Continuity.TAN
  triangulate := false
  selected := [0]
  linkFaces := fun _ => ∅
  faceAdj := fun _ => ∅
  preFairOk := true
  fairOk := true
  ext := fun _ => false

/-- An edit-mode run input whose external cancellation arrives before the
first checkpoint. -/
def miAllCancel : MeshInput where
  continuity := Continuity.TAN
  triangulate := false
  selected := [0]
  linkFaces := fun _ => ∅
  faceAdj := fun _ => ∅
  preFairOk := true
  fairOk := true
  ext := fun _ => true

/-- An edit-mode run input with an empty selection; following the spec's
solver contract, both fairing passes report failure on the empty set. -/
def miEmptySel : MeshInput where
  continuity := Continuity.POS
  triangulate := false
  selected := []
  linkFaces := fun _ => ∅
  faceAdj := fun _ => ∅
  preFairOk := false
  fairOk := false
  ext := fun _ => false

/-- An edit-mode run input requesting triangulation on a small face fan:
vertex 0 touches faces 0 and 1, and faces 0-1-2 form a chain. -/
def miTri : MeshInput where
  continuity := Continuity.TAN
  triangulate := true
  selected := [0]
  linkFaces := fun v => if v = 0 then {0, 1} else ∅
  faceAdj := fun f => if f = 0 then {1} else if f = 1 then {0, 2} else {1}
  preFairOk := true
  fairOk := true
  ext := fun _ => false

/-- Mask layer used by the concrete sculpt inputs: vertex 0 fully masked,
vertex 1 unmasked, vertex 2 exactly at one half. -/
def mPlain : Nat → ℚ :=
  fun v => if v = 0 then 1 else if v = 1 then 0 else half

/-- A plain sculpt-mode run input: mask layer present, mask inverted, no
external cancellation, both fairing passes succeed. -/
def siPlain : SculptInput where
  continuity := Continuity.CURV
  invertMask := true
  verts := [0, 1, 2]
  mask := some mPlain
  preFairOk := true
  fairOk := true
  bmValid := true
  ext := fun _ => false

/-- A sculpt-mode run input whose pre-fairing pass fails. -/
def siPreFairFail : SculptInput where
  continuity := Continuity.CURV
  invertMask := true
  verts := [0, 1, 2]
  mask := some mPlain
  preFairOk := false
  fairOk := true
  bmValid := true
  ext := fun _ => false

/-- A sculpt-mode run input whose mask layer leaves no vertex affected
(every mask value is zero and the mask is inverted). -/
def siEmptyMask : SculptInput where
  continuity := Continuity.POS
  invertMask := true
  verts := [0, 1]
  mask := some (fun _ => 0)
  preFairOk := true
  fairOk := true
  bmValid := true
  ext := fun _ => false

/-- A sculpt-mode run input with no paint-mask layer. -/
def siNoMask : SculptInput where
  continuity := Continuity.POS
  invertMask := false
  verts := [0, 1]
  mask := none
  preFairOk := true
  fairOk := true
  bmValid := true
  ext := fun _ => false

/-- Timer interval (seconds) registered by both internal operators'
`invoke` via `event_timer_add(0.1, ...)`. -/
def timerInterval : ℚ := 1/10

/-- Result value returned by a modal handler. -/
inductive ModalResult where
  | RUNNING_MODAL
  | FINISHED
  | CANCELLED
deriving DecidableEq

/-- Observable outcome of one modal tick: the returned value, the header
text displayed (none when the handler tears down), and whether the worker's
cancellation flag was set on this tick. -/
structure ModalOutput where
  result : ModalResult
  displayed : Option String
  cancelRequested : Bool
  timerRemoved : Bool
deriving DecidableEq

/-- Header text built by the modal handlers: the worker status, the animated
ellipsis left-justified to width three, and the cancel hint. -/
def fmtStatus (status ellipsis : String) : String :=
  status ++ (ellipsis ++ String.mk (List.replicate (3 - ellipsis.length) ' '))
    ++ " ESC: Cancel"

/-- Embedding of `MESH_OT_fair_vertices_internal.modal`: while the worker is
alive and not cancelled it displays the status and forwards an ESC press to
`cancel()`; otherwise it tears down and always returns FINISHED. -/
def meshModal (alive cancelled : Bool) (evType evValue : String)
    (status ellipsis : String) : ModalOutput :=
  if alive && !cancelled then
    { result := ModalResult.RUNNING_MODAL,
      displayed := some (fmtStatus status ellipsis),
      cancelRequested := evType == "ESC" && evValue == "PRESS",
      timerRemoved := false }
  else
    { result := ModalResult.FINISHED, displayed := none,
      cancelRequested := false, timerRemoved := true }

/-- Embedding of `SCULPT_OT_fair_vertices_internal.modal`: identical to the
edit-mode handler except that on teardown it returns CANCELLED when the
worker is cancelled and FINISHED otherwise. -/
def sculptModal (alive cancelled : Bool) (evType evValue : String)
    (status ellipsis : String) : ModalOutput :=
  if alive && !cancelled then
    { result := ModalResult.RUNNING_MODAL,
      displayed := some (fmtStatus status ellipsis),
      cancelRequested := evType == "ESC" && evValue == "PRESS",
      timerRemoved := false }
  else
    { result := if cancelled then ModalResult.CANCELLED
                else ModalResult.FINISHED,
      displayed := none, cancelRequested := false, timerRemoved := true }

/-- Host tool state read and written by the sculpt-mode `invoke`. -/
structure ToolState where
  tool : String
  useUnifiedSize : Bool
  brushSize : Int
deriving DecidableEq

/-- Externally visible actions of the sculpt-mode `invoke`, in order. -/
inductive InvokeEffect where
  | displayPopup (message title icon : String)
  | toolSet (name : String)
  | setUseUnifiedSize (b : Bool)
  | setBrushSize (n : Int)
  | brushStroke
  | workerStart
  | timerAdd (seconds : ℚ)
deriving DecidableEq

/-- Result value returned by `invoke`. -/
inductive InvokeResult where
  | CANCELLED
  | RUNNING_MODAL
deriving DecidableEq

/-- Outcome of `SCULPT_OT_fair_vertices_internal.invoke`: the returned
value, the ordered effect list, and the tool state once `invoke` returns. -/
structure SculptInvokeResult where
  result : InvokeResult
  effects : List InvokeEffect
  finalState : ToolState
deriving DecidableEq

/-- Embedding of `SCULPT_OT_fair_vertices_internal.invoke`.  With dyntopo
enabled it only displays an error popup and returns CANCELLED.  Otherwise it
saves the current tool id, the unified-size flag and the brush size, swaps in
the Draw brush with maximal size, pushes one null stroke, restores the three
saved values, then starts the worker and registers the timer. -/
def sculptInvoke (dyntopo : Bool) (s0 : ToolState) : SculptInvokeResult :=
  if dyntopo then
    { result := InvokeResult.CANCELLED,
      effects := [InvokeEffect.displayPopup
        "Mesh fairing is not supported in dyntopo." "Report: Error" "ERROR"],
      finalState := s0 }
  else
    let toolName := s0.tool
    let s1 : ToolState := { s0 with tool := "builtin_brush.Draw" }
    let useUnified := s1.useUnifiedSize
    let s2 : ToolState := { s1 with useUnifiedSize := false }
    let bsize := s2.brushSize
    let s3 : ToolState := { s2 with brushSize := 2147483647 }
    let s4 : ToolState := { s3 with tool := toolName }
    let s5 : ToolState := { s4 with useUnifiedSize := useUnified }
    let s6 : ToolState := { s5 with brushSize := bsize }
    { result := InvokeResult.RUNNING_MODAL,
      effects :=
        [InvokeEffect.toolSet "builtin_brush.Draw",
         InvokeEffect.setUseUnifiedSize false,
         InvokeEffect.setBrushSize 2147483647,
         InvokeEffect.brushStroke,
         InvokeEffect.toolSet toolName,
         InvokeEffect.setUseUnifiedSize useUnified,
         InvokeEffect.setBrushSize bsize,
         InvokeEffect.workerStart,
         InvokeEffect.timerAdd timerInterval],
      finalState := s6 }

/-- Effects of `MESH_OT_fair_vertices_internal.invoke`: start the worker
thread and register the modal timer. -/
def meshInvokeEffects : List InvokeEffect :=
  [InvokeEffect.workerStart, InvokeEffect.timerAdd timerInterval]

/-- Whether an event is a status update. -/
def isSetStatus : Event → Bool
  | .setStatus _ => true
  | _ => false

/-- Whether an event starts a major pipeline phase. -/
def isPhase : Event → Bool
  | .determineAffected => true
  | .triangulateFaces _ => true
  | .fairCall _ _ _ _ => true
  | .commitMesh => true
  | _ => false

/-- Whether an event is an invocation of the fairing engine. -/
def isFairCall : Event → Bool
  | .fairCall _ _ _ _ => true
  | _ => false

/-- Whether an event is the triangulation step. -/
def isTriangulate : Event → Bool
  | .triangulateFaces _ => true
  | _ => false

/-- Every adjacent pair of the trace in which the second event starts a
phase has a status update as its first component. -/
def pairsOk : List Event → Bool
  | a :: b :: rest => (!(isPhase b) || isSetStatus a) && pairsOk (b :: rest)
  | _ => true

/-- The first trace event, if any, is not itself a phase start. -/
def headOk : List Event → Bool
  | [] => true
  | e :: _ => !(isPhase e)

/-- A trace is good when every phase-starting event is immediately preceded
by a status update. -/
def goodTrace (t : List Event) : Bool := headOk t && pairsOk t

theorem pairsOk_append {a b : List Event} (ha : pairsOk a = true)
    (hb1 : headOk b = true) (hb2 : pairsOk b = true) :
    pairsOk (a ++ b) = true := by
  induction a with
  | nil => simpa using hb2
  | cons e rest ih =>
      cases rest with
      | nil =>
          cases b with
          | nil => simp [pairsOk]
          | cons f bs =>
              simp only [List.singleton_append, pairsOk, Bool.and_eq_true]
              refine ⟨?_, hb2⟩
              simp only [headOk] at hb1
              simp [hb1]
      | cons x xs =>
          simp only [List.cons_append, pairsOk, Bool.and_eq_true] at ha ⊢
          refine ⟨ha.1, ?_⟩
          simpa [List.cons_append] using ih ha.2

theorem goodTrace_append {a b : List Event} (ha : goodTrace a = true)
    (hb : goodTrace b = true) : goodTrace (a ++ b) = true := by
  simp only [goodTrace, Bool.and_eq_true] at ha hb ⊢
  refine ⟨?_, pairsOk_append ha.2 hb.1 hb.2⟩
  cases a with
  | nil => simpa using hb.1
  | cons e rest => simpa [headOk] using ha.1

theorem goodTrace_if {c : Bool} {a b : List Event} (ha : goodTrace a = true)
    (hb : goodTrace b = true) : goodTrace (if c then a else b) = true := by
  cases c
  · simpa using hb
  · simpa using ha

theorem goodTrace_meshRun (mi : MeshInput) :
    goodTrace (meshRun mi).events = true := by
  simp only [meshRun]
  refine goodTrace_append (goodTrace_append (goodTrace_append
    (goodTrace_append (goodTrace_append ?_ ?_) ?_) ?_) ?_) ?_
  · simp [goodTrace, headOk, pairsOk, isPhase, isSetStatus]
  · refine goodTrace_if (by simp [goodTrace, headOk, pairsOk]) ?_
    simp [goodTrace, headOk, pairsOk, isPhase, isSetStatus]
  · refine goodTrace_if ?_ (by simp [goodTrace, headOk, pairsOk])
    simp [goodTrace, headOk, pairsOk, isPhase, isSetStatus]
  · refine goodTrace_if (by simp [goodTrace, headOk, pairsOk]) ?_
    cases mi.preFairOk <;>
      simp [goodTrace, headOk, pairsOk, isPhase, isSetStatus]
  · refine goodTrace_if (by simp [goodTrace, headOk, pairsOk]) ?_
    cases mi.fairOk <;>
      simp [goodTrace, headOk, pairsOk, isPhase, isSetStatus]
  · simp [goodTrace, headOk, pairsOk, isPhase, isSetStatus]

theorem goodTrace_sculptRun (si : SculptInput) :
    goodTrace (sculptRun si).events = true := by
  simp only [sculptRun]
  refine goodTrace_append (goodTrace_append (goodTrace_append
    (goodTrace_append (goodTrace_append ?_ ?_) ?_) ?_) ?_) ?_
  · simp [goodTrace, headOk, pairsOk, isPhase, isSetStatus]
  · refine goodTrace_if (by simp [goodTrace, headOk, pairsOk]) ?_
    simp [goodTrace, headOk, pairsOk, isPhase, isSetStatus]
  · refine goodTrace_if ?_ (by simp [goodTrace, headOk, pairsOk])
    simp [goodTrace, headOk, pairsOk, isPhase, isSetStatus]
  · refine goodTrace_if (by simp [goodTrace, headOk, pairsOk]) ?_
    cases si.preFairOk <;>
      simp [goodTrace, headOk, pairsOk, isPhase, isSetStatus]
  · refine goodTrace_if (by simp [goodTrace, headOk, pairsOk]) ?_
    cases si.fairOk <;>
      simp [goodTrace, headOk, pairsOk, isPhase, isSetStatus]
  · refine goodTrace_if (by simp [goodTrace, headOk, pairsOk]) ?_
    cases si.bmValid <;>
      simp [goodTrace, headOk, pairsOk, isPhase, isSetStatus]

/-- Membership in a conditional block that is empty when the guard fails. -/
theorem mem_if_list_nil {α : Type} {c : Bool} {l : List α} {x : α} :
    x ∈ (if c then l else []) ↔ c = true ∧ x ∈ l := by
  cases c <;> simp

/-- Membership in a conditional block that is empty when the guard holds. -/
theorem mem_if_nil_list {α : Type} {c : Bool} {l : List α} {x : α} :
    x ∈ (if c then [] else l) ↔ c = false ∧ x ∈ l := by
  cases c <;> simp

theorem half_eq_one_div_two : half = (1 : ℚ)/2 := by
  rw [half, Rat.mk'_eq_divInt, Rat.divInt_eq_div]
  norm_num

theorem meshRun_cTriangulate_eq (mi : MeshInput) :
    (meshRun mi).cTriangulate = ((meshRun mi).cDetermine || mi.ext 1) := rfl

theorem meshRun_cPreFair_eq (mi : MeshInput) :
    (meshRun mi).cPreFair = ((meshRun mi).cTriangulate || mi.ext 2) := rfl

theorem meshRun_cFair_eq (mi : MeshInput) :
    (meshRun mi).cFair =
      (((meshRun mi).cPreFair ||
        (!(meshRun mi).cPreFair && !mi.preFairOk)) || mi.ext 3) := rfl

theorem meshRun_cancelled_eq (mi : MeshInput) :
    (meshRun mi).cancelled =
      ((meshRun mi).cFair || (!(meshRun mi).cFair && !mi.fairOk)) := rfl

theorem sculptRun_cEmptyCheck_eq (si : SculptInput) :
    (sculptRun si).cEmptyCheck = ((sculptRun si).cDetermine || si.ext 1) := rfl

theorem sculptRun_cPreFair_eq (si : SculptInput) :
    (sculptRun si).cPreFair =
      (((sculptRun si).cEmptyCheck ||
        (!(sculptRun si).cEmptyCheck &&
          ((sculptAffected si.verts si.mask si.invertMask).length == 0))) ||
        si.ext 2) := rfl

theorem sculptRun_cFair_eq (si : SculptInput) :
    (sculptRun si).cFair =
      (((sculptRun si).cPreFair ||
        (!(sculptRun si).cPreFair && !si.preFairOk)) || si.ext 3) := rfl

theorem sculptRun_cCommit_eq (si : SculptInput) :
    (sculptRun si).cCommit =
      (((sculptRun si).cFair || (!(sculptRun si).cFair && !si.fairOk)) ||
        si.ext 4) := rfl

theorem sculptRun_cancelled_eq (si : SculptInput) :
    (sculptRun si).cancelled = (sculptRun si).cCommit := rfl

theorem bool_fail_step {a p e : Bool}
    (h : ((a || (!a && !p)) || e) = false) :
    a = false ∧ p = true ∧ e = false := by
  revert h
  revert a p e
  decide

theorem bool_or_false {a b : Bool} (h : (a || b) = false) :
    a = false ∧ b = false := by
  revert h
  revert a b
  decide

theorem mesh_determine_not_mem (mi : MeshInput)
    (h : (meshRun mi).cDetermine = true) :
    Event.determineAffected ∉ (meshRun mi).events := by
  intro hmem
  simp only [meshRun] at h hmem
  simp [mem_if_list_nil, mem_if_nil_list, h] at hmem

theorem mesh_triangulate_not_mem (mi : MeshInput)
    (h : (meshRun mi).cTriangulate = true) (s : Finset Nat) :
    Event.triangulateFaces s ∉ (meshRun mi).events := by
  intro hmem
  simp only [meshRun] at h hmem
  simp [mem_if_list_nil, mem_if_nil_list, h] at hmem

theorem mesh_fairPre_not_mem (mi : MeshInput)
    (h : (meshRun mi).cPreFair = true) (a : List Nat) (o : Nat) :
    Event.fairCall a o VertexWeight.UNIFORM LoopWeight.UNIFORM
      ∉ (meshRun mi).events := by
  intro hmem
  simp only [meshRun] at h hmem
  simp [mem_if_list_nil, mem_if_nil_list, h] at hmem

theorem list_length_beq_zero_eq_false {α : Type} {l : List α}
    (h : ¬ l = []) : (l.length == 0) = false := by
  cases l with
  | nil => exact absurd rfl h
  | cons x xs => rfl

theorem mesh_fairMain_not_mem (mi : MeshInput)
    (h : (meshRun mi).cFair = true) (a : List Nat) (o : Nat) :
    Event.fairCall a o VertexWeight.VORONOI LoopWeight.COTAN
      ∉ (meshRun mi).events := by
  intro hmem
  simp only [meshRun] at h hmem
  simp [mem_if_list_nil, mem_if_nil_list] at hmem
  obtain ⟨⟨⟨⟨⟨he0, he1⟩, he2⟩, himp⟩, he3⟩, _⟩ := hmem
  simp [he0, he1, he2, he3, himp he0 he1 he2] at h

theorem sculpt_determine_not_mem (si : SculptInput)
    (h : (sculptRun si).cDetermine = true) :
    Event.determineAffected ∉ (sculptRun si).events := by
  intro hmem
  simp only [sculptRun] at h hmem
  simp [mem_if_list_nil, mem_if_nil_list, h] at hmem

theorem sculpt_fairPre_not_mem (si : SculptInput)
    (h : (sculptRun si).cPreFair = true) (a : List Nat) (o : Nat) :
    Event.fairCall a o VertexWeight.UNIFORM LoopWeight.UNIFORM
      ∉ (sculptRun si).events := by
  intro hmem
  simp only [sculptRun] at h hmem
  simp [mem_if_list_nil, mem_if_nil_list] at hmem
  obtain ⟨⟨⟨⟨he0, he1⟩, hne⟩, he2⟩, _⟩ := hmem
  simp [he0, he1, he2, list_length_beq_zero_eq_false (hne he0 he1)] at h

theorem sculpt_fairMain_not_mem (si : SculptInput)
    (h : (sculptRun si).cFair = true) (a : List Nat) (o : Nat) :
    Event.fairCall a o VertexWeight.VORONOI LoopWeight.COTAN
      ∉ (sculptRun si).events := by
  intro hmem
  simp only [sculptRun] at h hmem
  simp [mem_if_list_nil, mem_if_nil_list] at hmem
  obtain ⟨⟨⟨⟨⟨⟨he0, he1⟩, hne⟩, he2⟩, himp⟩, he3⟩, _⟩ := hmem
  have hav := hne he0 he1
  have hpre := himp he0 he1 (Or.inr hav) he2
  simp [he0, he1, he2, he3, hpre,
    list_length_beq_zero_eq_false hav] at h

theorem sculpt_commit_not_mem (si : SculptInput)
    (h : (sculptRun si).cCommit = true) :
    Event.commitMesh ∉ (sculptRun si).events := by
  intro hmem
  simp only [sculptRun] at h hmem
  simp [mem_if_list_nil, mem_if_nil_list] at hmem
  obtain ⟨⟨⟨⟨⟨⟨⟨⟨he0, he1⟩, hne⟩, he2⟩, himpP⟩, he3⟩, himpF⟩, he4⟩, _⟩ := hmem
  have hav := hne he0 he1
  have hpre := himpP he0 he1 (Or.inr hav) he2
  have hfair := himpF he0 he1 (Or.inr hav) he2 (Or.inr hpre) he3
  simp [he0, he1, he2, he3, he4, hpre, hfair,
    list_length_beq_zero_eq_false hav] at h

theorem mesh_commit_mem (mi : MeshInput) :
    Event.commitMesh ∈ (meshRun mi).events := by
  simp [meshRun]

theorem bool_fail_step2 {a p : Bool} (h : (a || (!a && !p)) = false) :
    a = false ∧ p = true := by
  revert h
  revert a p
  decide

theorem bool_selfcancel {a q : Bool} (h : (a || (!a && q)) = false) :
    a = false ∧ q = false := by
  revert h
  revert a q
  decide

theorem meshRun_cDetermine_eq (mi : MeshInput) :
    (meshRun mi).cDetermine = mi.ext 0 := rfl

theorem sculptRun_cDetermine_eq (si : SculptInput) :
    (sculptRun si).cDetermine = si.ext 0 := rfl

theorem mesh_not_cancelled (mi : MeshInput)
    (h : (meshRun mi).cancelled = false) :
    mi.ext 0 = false ∧ mi.ext 1 = false ∧ mi.ext 2 = false ∧
      mi.ext 3 = false ∧ mi.preFairOk = true ∧ mi.fairOk = true := by
  rw [meshRun_cancelled_eq] at h
  obtain ⟨hf, hfair⟩ := bool_fail_step2 h
  rw [meshRun_cFair_eq] at hf
  obtain ⟨hpf, hpre, he3⟩ := bool_fail_step hf
  rw [meshRun_cPreFair_eq] at hpf
  obtain ⟨htr, he2⟩ := bool_or_false hpf
  rw [meshRun_cTriangulate_eq] at htr
  obtain ⟨hd, he1⟩ := bool_or_false htr
  rw [meshRun_cDetermine_eq] at hd
  exact ⟨hd, he1, he2, he3, hpre, hfair⟩

theorem sculpt_not_cancelled (si : SculptInput)
    (h : (sculptRun si).cancelled = false) :
    si.ext 0 = false ∧ si.ext 1 = false ∧ si.ext 2 = false ∧
      si.ext 3 = false ∧ si.ext 4 = false ∧
      si.preFairOk = true ∧ si.fairOk = true ∧
      ((sculptAffected si.verts si.mask si.invertMask).length == 0)
        = false := by
  rw [sculptRun_cancelled_eq, sculptRun_cCommit_eq] at h
  obtain ⟨hf, hfair, he4⟩ := bool_fail_step h
  rw [sculptRun_cFair_eq] at hf
  obtain ⟨hpf, hpre, he3⟩ := bool_fail_step hf
  rw [sculptRun_cPreFair_eq] at hpf
  obtain ⟨hec, he2⟩ := bool_or_false hpf
  obtain ⟨hee, hL⟩ := bool_selfcancel hec
  rw [sculptRun_cEmptyCheck_eq] at hee
  obtain ⟨hd, he1⟩ := bool_or_false hee
  rw [sculptRun_cDetermine_eq] at hd
  exact ⟨hd, he1, he2, he3, he4, hpre, hfair, hL⟩

/-- C1 counterexample: in an edit-mode worker run where cancellation is
observed at the very first checkpoint, the worker ends cancelled yet still
performs the final mesh-update step, so the commit is not skipped as the
claim states. -/
theorem C1_counterexample :
    (meshRun miAllCancel).cancelled = true ∧
    Event.commitMesh ∈ (meshRun miAllCancel).events := by
  exact ⟨by decide, by decide⟩

/-- C1 amended: when either fairing pass fails or cancellation is observed,
the worker marks the whole task cancelled and skips any remaining fairing
pass; the sculpt-mode worker additionally skips the final mesh commit, while
the edit-mode worker performs its mesh-update step unconditionally. -/
theorem C1_abort_behaviour (mi : MeshInput) (si : SculptInput) :
    ((meshRun mi).cPreFair = false → mi.preFairOk = false →
      (meshRun mi).cancelled = true ∧
      ∀ a o, Event.fairCall a o VertexWeight.VORONOI LoopWeight.COTAN
        ∉ (meshRun mi).events) ∧
    ((meshRun mi).cFair = false → mi.fairOk = false →
      (meshRun mi).cancelled = true) ∧
    ((sculptRun si).cPreFair = false → si.preFairOk = false →
      (sculptRun si).cancelled = true ∧
      ∀ a o, Event.fairCall a o VertexWeight.VORONOI LoopWeight.COTAN
        ∉ (sculptRun si).events) ∧
    ((sculptRun si).cFair = false → si.fairOk = false →
      (sculptRun si).cancelled = true) ∧
    ((sculptRun si).cancelled = true →
      Event.commitMesh ∉ (sculptRun si).events) := by
  refine ⟨?_, ?_, ?_, ?_, ?_⟩
  · intro h hp
    have hcf : (meshRun mi).cFair = true := by
      rw [meshRun_cFair_eq, h, hp]
      rfl
    refine ⟨?_, fun a o => mesh_fairMain_not_mem mi hcf a o⟩
    rw [meshRun_cancelled_eq, hcf]
    rfl
  · intro h hfr
    rw [meshRun_cancelled_eq, h, hfr]
    rfl
  · intro h hp
    have hcf : (sculptRun si).cFair = true := by
      rw [sculptRun_cFair_eq, h, hp]
      rfl
    refine ⟨?_, fun a o => sculpt_fairMain_not_mem si hcf a o⟩
    rw [sculptRun_cancelled_eq, sculptRun_cCommit_eq, hcf]
    rfl
  · intro h hfr
    rw [sculptRun_cancelled_eq, sculptRun_cCommit_eq, h, hfr]
    rfl
  · intro h
    have hcc : (sculptRun si).cCommit = true := by
      rw [← sculptRun_cancelled_eq]
      exact h
    exact sculpt_commit_not_mem si hcc

/-- C1 witness: a sculpt-mode run whose pre-fairing pass fails ends
cancelled and its trace contains no mesh commit. -/
theorem C1_witness :
    (sculptRun siPreFairFail).cancelled = true ∧
    Event.commitMesh ∉ (sculptRun siPreFairFail).events := by
  have h := C1_abort_behaviour miPlain siPreFairFail
  have h3 := h.2.2.1 (by decide) rfl
  exact ⟨h3.1, h.2.2.2.2 h3.1⟩

/-- C5: the cancellation flag is monotone across the checkpoints of either
worker run (once observed set, it is set at every later checkpoint and in
the final state), and a guarded phase (determining affected vertices,
triangulation, pre-fairing, fairing) never appears in the trace when the
flag was set at its guard. -/
theorem C5_cancellation_monotone (mi : MeshInput) (si : SculptInput) :
    ((meshRun mi).cDetermine = true → (meshRun mi).cTriangulate = true) ∧
    ((meshRun mi).cTriangulate = true → (meshRun mi).cPreFair = true) ∧
    ((meshRun mi).cPreFair = true → (meshRun mi).cFair = true) ∧
    ((meshRun mi).cFair = true → (meshRun mi).cancelled = true) ∧
    ((meshRun mi).cDetermine = true →
      Event.determineAffected ∉ (meshRun mi).events) ∧
    ((meshRun mi).cTriangulate = true →
      ∀ s, Event.triangulateFaces s ∉ (meshRun mi).events) ∧
    ((meshRun mi).cPreFair = true → ∀ a o,
      Event.fairCall a o VertexWeight.UNIFORM LoopWeight.UNIFORM
        ∉ (meshRun mi).events) ∧
    ((meshRun mi).cFair = true → ∀ a o,
      Event.fairCall a o VertexWeight.VORONOI LoopWeight.COTAN
        ∉ (meshRun mi).events) ∧
    ((sculptRun si).cDetermine = true → (sculptRun si).cEmptyCheck = true) ∧
    ((sculptRun si).cEmptyCheck = true → (sculptRun si).cPreFair = true) ∧
    ((sculptRun si).cPreFair = true → (sculptRun si).cFair = true) ∧
    ((sculptRun si).cFair = true → (sculptRun si).cCommit = true) ∧
    ((sculptRun si).cCommit = true → (sculptRun si).cancelled = true) ∧
    ((sculptRun si).cDetermine = true →
      Event.determineAffected ∉ (sculptRun si).events) ∧
    ((sculptRun si).cPreFair = true → ∀ a o,
      Event.fairCall a o VertexWeight.UNIFORM LoopWeight.UNIFORM
        ∉ (sculptRun si).events) ∧
    ((sculptRun si).cFair = true → ∀ a o,
      Event.fairCall a o VertexWeight.VORONOI LoopWeight.COTAN
        ∉ (sculptRun si).events) := by
  refine ⟨?_, ?_, ?_, ?_, ?_, ?_, ?_, ?_, ?_, ?_, ?_, ?_, ?_, ?_, ?_, ?_⟩
  · intro h
    rw [meshRun_cTriangulate_eq, h]
    rfl
  · intro h
    rw [meshRun_cPreFair_eq, h]
    rfl
  · intro h
    rw [meshRun_cFair_eq, h]
    rfl
  · intro h
    rw [meshRun_cancelled_eq, h]
    rfl
  · exact fun h => mesh_determine_not_mem mi h
  · exact fun h s => mesh_triangulate_not_mem mi h s
  · exact fun h a o => mesh_fairPre_not_mem mi h a o
  · exact fun h a o => mesh_fairMain_not_mem mi h a o
  · intro h
    rw [sculptRun_cEmptyCheck_eq, h]
    rfl
  · intro h
    rw [sculptRun_cPreFair_eq, h]
    rfl
  · intro h
    rw [sculptRun_cFair_eq, h]
    rfl
  · intro h
    rw [sculptRun_cCommit_eq, h]
    rfl
  · intro h
    rw [sculptRun_cancelled_eq]
    exact h
  · exact fun h => sculpt_determine_not_mem si h
  · exact fun h a o => sculpt_fairPre_not_mem si h a o
  · exact fun h a o => sculpt_fairMain_not_mem si h a o

/-- C5 witness: in an edit-mode run cancelled at the first checkpoint, the
flag is still set at the triangulation guard and the determine-affected
phase never appears in the trace. -/
theorem C5_witness :
    (meshRun miAllCancel).cTriangulate = true ∧
    Event.determineAffected ∉ (meshRun miAllCancel).events := by
  have h := C5_cancellation_monotone miAllCancel siPlain
  exact ⟨h.1 (by decide), h.2.2.2.2.1 (by decide)⟩

/-- C2: a run that is not cancelled invokes the fairing engine exactly
twice, first with order POSITION and UNIFORM vertex and loop weights, then
with the requested continuity order; and the requested-order pass can only
appear in the trace when the pre-fairing pass succeeded. -/
theorem C2_two_pass_order (mi : MeshInput) (si : SculptInput) :
    ((meshRun mi).cancelled = false →
      (meshRun mi).events.filter isFairCall =
        [Event.fairCall mi.selected Continuity.POS.value
           VertexWeight.UNIFORM LoopWeight.UNIFORM,
         Event.fairCall mi.selected mi.continuity.value
           VertexWeight.VORONOI LoopWeight.COTAN]) ∧
    (∀ a o, Event.fairCall a o VertexWeight.VORONOI LoopWeight.COTAN
        ∈ (meshRun mi).events → mi.preFairOk = true) ∧
    ((sculptRun si).cancelled = false →
      (sculptRun si).events.filter isFairCall =
        [Event.fairCall (sculptAffected si.verts si.mask si.invertMask)
           Continuity.POS.value VertexWeight.UNIFORM LoopWeight.UNIFORM,
         Event.fairCall (sculptAffected si.verts si.mask si.invertMask)
           si.continuity.value VertexWeight.VORONOI LoopWeight.COTAN]) ∧
    (∀ a o, Event.fairCall a o VertexWeight.VORONOI LoopWeight.COTAN
        ∈ (sculptRun si).events → si.preFairOk = true) := by
  refine ⟨?_, ?_, ?_, ?_⟩
  · intro h
    obtain ⟨h0, h1, h2, h3, hp, hf⟩ := mesh_not_cancelled mi h
    cases ht : mi.triangulate <;>
      simp [meshRun, h0, h1, h2, h3, hp, hf, ht, isFairCall]
  · intro a o hmem
    by_contra hp
    have hp2 : mi.preFairOk = false := by
      revert hp
      cases mi.preFairOk <;> simp
    have hcf : (meshRun mi).cFair = true := by
      rw [meshRun_cFair_eq, hp2]
      simp
    exact mesh_fairMain_not_mem mi hcf a o hmem
  · intro h
    obtain ⟨s0, s1, s2, s3, s4, sp, sf, sL⟩ := sculpt_not_cancelled si h
    cases hb : si.bmValid <;>
      simp [sculptRun, s0, s1, s2, s3, s4, sp, sf, sL, hb, isFairCall]
  · intro a o hmem
    by_contra hp
    have hp2 : si.preFairOk = false := by
      revert hp
      cases si.preFairOk <;> simp
    have hcf : (sculptRun si).cFair = true := by
      rw [sculptRun_cFair_eq, hp2]
      simp
    exact sculpt_fairMain_not_mem si hcf a o hmem

/-- C2 witness: the plain edit-mode run is not cancelled and its trace holds
exactly the pre-fairing pass followed by the requested-order pass. -/
theorem C2_witness :
    (meshRun miPlain).events.filter isFairCall =
      [Event.fairCall miPlain.selected Continuity.POS.value
         VertexWeight.UNIFORM LoopWeight.UNIFORM,
       Event.fairCall miPlain.selected miPlain.continuity.value
         VertexWeight.VORONOI LoopWeight.COTAN] :=
  (C2_two_pass_order miPlain siPlain).1 (by decide)

/-- C3 counterexample: the edit-mode worker has no empty-set check, so on a
run whose affected-vertex set is empty the pre-fairing solver call is still
made, contradicting the claim that no fairing pass runs. -/
theorem C3_counterexample :
    miEmptySel.selected = [] ∧
    Event.fairCall [] Continuity.POS.value
      VertexWeight.UNIFORM LoopWeight.UNIFORM ∈ (meshRun miEmptySel).events := by
  exact ⟨rfl, by decide⟩

/-- C3 amended: only the sculpt-mode worker treats an empty affected set as
an immediate non-error cancellation (no fairing pass runs and the run ends
cancelled); the edit-mode worker performs no emptiness check and invokes the
solver whenever its pre-fairing guard sees no cancellation, even on an empty
selection. -/
theorem C3_empty_set_handling (si : SculptInput) (mi : MeshInput) :
    (sculptAffected si.verts si.mask si.invertMask = [] →
      (sculptRun si).cancelled = true ∧
      (sculptRun si).events.filter isFairCall = []) ∧
    ((meshRun mi).cPreFair = false →
      Event.fairCall mi.selected Continuity.POS.value
        VertexWeight.UNIFORM LoopWeight.UNIFORM ∈ (meshRun mi).events) := by
  constructor
  · intro h
    have hL : ((sculptAffected si.verts si.mask si.invertMask).length == 0)
        = true := by
      rw [h]
      rfl
    constructor
    · cases h0 : si.ext 0 <;> cases h1 : si.ext 1 <;>
        simp [sculptRun, hL, h0, h1]
    · cases h0 : si.ext 0 <;> cases h1 : si.ext 1 <;>
        simp [sculptRun, hL, h0, h1, isFairCall]
  · intro h
    rw [meshRun_cPreFair_eq] at h
    obtain ⟨htr, he2⟩ := bool_or_false h
    rw [meshRun_cTriangulate_eq] at htr
    obtain ⟨hd, he1⟩ := bool_or_false htr
    rw [meshRun_cDetermine_eq] at hd
    simp [meshRun, hd, he1, he2, Continuity.value]

/-- C3 witness: a sculpt run whose mask leaves no vertex affected cancels
with no fairing call, and the edit-mode run on an empty selection still
contains a pre-fairing solver call. -/
theorem C3_witness :
    (sculptRun siEmptyMask).cancelled = true ∧
    Event.fairCall miEmptySel.selected Continuity.POS.value
      VertexWeight.UNIFORM LoopWeight.UNIFORM ∈ (meshRun miEmptySel).events := by
  have h := C3_empty_set_handling siEmptyMask miEmptySel
  exact ⟨(h.1 (by decide)).1, h.2 (by decide)⟩

/-- C4: in an edit-mode run with triangulation requested and no cancellation
at the triangulation guard, the face set passed to triangulation is exactly
the spec's formula (faces adjacent to affected vertices, unioned with the
expansion of the boundary faces of that set by continuity order minus one
rings), and no fairing-engine call occurs before the triangulation event. -/
theorem C4_triangulation_region (mi : MeshInput)
    (ht : mi.triangulate = true) (hc : (meshRun mi).cTriangulate = false) :
    Event.triangulateFaces (specTriangulationRegion mi)
      ∈ (meshRun mi).events ∧
    involvedFaces mi = specTriangulationRegion mi ∧
    ∀ e ∈ (meshRun mi).events.takeWhile (fun e => !(isTriangulate e)),
      isFairCall e = false := by
  rw [meshRun_cTriangulate_eq] at hc
  obtain ⟨hd, he1⟩ := bool_or_false hc
  rw [meshRun_cDetermine_eq] at hd
  have hspec : specTriangulationRegion mi = involvedFaces mi := rfl
  refine ⟨?_, rfl, ?_⟩
  · rw [hspec]
    simp [meshRun, hd, he1, ht]
  · simp [meshRun, hd, he1, ht, List.takeWhile_cons, isTriangulate,
      isFairCall]

/-- C4 witness: on the concrete triangulating input the triangulation event
with the spec's face region is in the trace. -/
theorem C4_witness :
    Event.triangulateFaces (specTriangulationRegion miTri)
      ∈ (meshRun miTri).events :=
  (C4_triangulation_region miTri rfl (by decide)).1

/-- C6 counterexample: with the worker thread dead and cancelled, the
edit-mode internal modal still returns FINISHED, not a cancelled result. -/
theorem C6_counterexample :
    (meshModal false true "ESC" "PRESS" "Fairing" "").result
        = ModalResult.FINISHED ∧
    ModalResult.FINISHED ≠ ModalResult.CANCELLED := by
  exact ⟨rfl, by decide⟩

/-- C6 amended: when the worker thread has ended, the sculpt-mode internal
modal returns CANCELLED exactly when the worker is cancelled, while the
edit-mode internal modal always returns FINISHED regardless of the worker's
cancellation state. -/
theorem C6_modal_results (c : Bool) (t v st el : String) :
    (sculptModal false c t v st el).result =
      (if c then ModalResult.CANCELLED else ModalResult.FINISHED) ∧
    (meshModal false c t v st el).result = ModalResult.FINISHED := by
  cases c <;> exact ⟨rfl, rfl⟩

/-- C7: both operators register the modal timer at the fixed 0.1-second
interval; while the worker is alive and not cancelled a modal tick keeps
running, displays the worker's status string, and requests cancellation
exactly when the event is an ESC press; and in every worker trace each
major phase event is immediately preceded by a status update. -/
theorem C7_polling_and_status (mi : MeshInput) (si : SculptInput)
    (s0 : ToolState) (t v st el : String) :
    timerInterval = 1/10 ∧
    InvokeEffect.timerAdd timerInterval ∈ meshInvokeEffects ∧
    InvokeEffect.timerAdd timerInterval ∈ (sculptInvoke false s0).effects ∧
    (meshModal true false t v st el).result = ModalResult.RUNNING_MODAL ∧
    (meshModal true false t v st el).displayed = some (fmtStatus st el) ∧
    (meshModal true false t v st el).cancelRequested
        = (t == "ESC" && v == "PRESS") ∧
    (sculptModal true false t v st el).result = ModalResult.RUNNING_MODAL ∧
    (sculptModal true false t v st el).displayed = some (fmtStatus st el) ∧
    (sculptModal true false t v st el).cancelRequested
        = (t == "ESC" && v == "PRESS") ∧
    goodTrace (meshRun mi).events = true ∧
    goodTrace (sculptRun si).events = true := by
  refine ⟨rfl, by simp [meshInvokeEffects], ?_, rfl, rfl, rfl, rfl, rfl, rfl,
    goodTrace_meshRun mi, goodTrace_sculptRun si⟩
  simp [sculptInvoke]

/-- C8: the sculpt-mode affected set is exactly the vertices with mask at
least one half when the mask is inverted, exactly those with mask at most
one half when it is not, a vertex with mask exactly one half is affected in
both modes, and with no mask layer the set is empty and the run cancels. -/
theorem C8_mask_selection (si : SculptInput) (m : Nat → ℚ) (v : Nat) :
    (si.mask = none →
      sculptAffected si.verts si.mask si.invertMask = [] ∧
      (sculptRun si).cancelled = true) ∧
    (si.mask = some m → si.invertMask = true →
      sculptAffected si.verts si.mask si.invertMask
        = si.verts.filter (fun w => decide ((1 : ℚ)/2 ≤ m w))) ∧
    (si.mask = some m → si.invertMask = false →
      sculptAffected si.verts si.mask si.invertMask
        = si.verts.filter (fun w => decide (m w ≤ (1 : ℚ)/2))) ∧
    (v ∈ si.verts → m v = (1 : ℚ)/2 →
      v ∈ sculptAffected si.verts (some m) true ∧
      v ∈ sculptAffected si.verts (some m) false) := by
  refine ⟨?_, ?_, ?_, ?_⟩
  · intro h
    have hE : sculptAffected si.verts si.mask si.invertMask = [] := by
      simp [sculptAffected, h]
    refine ⟨hE, ?_⟩
    have hL : ((sculptAffected si.verts si.mask si.invertMask).length == 0)
        = true := by
      rw [hE]
      rfl
    cases h0 : si.ext 0 <;> cases h1 : si.ext 1 <;>
      simp [sculptRun, hL, h0, h1]
  · intro h hv
    simp [sculptAffected, h, hv, half_eq_one_div_two]
  · intro h hv
    simp [sculptAffected, h, hv, half_eq_one_div_two]
  · intro hv hm
    constructor
    · simp [sculptAffected, List.mem_filter, hv, hm, half_eq_one_div_two]
    · simp [sculptAffected, List.mem_filter, hv, hm, half_eq_one_div_two]

/-- C8 witness: with the mask layer absent the affected set is empty and the
run cancels; with the concrete mask present and inverted the affected set is
the mask-at-least-one-half filter, which keeps the vertex at exactly one
half. -/
theorem C8_witness :
    (sculptAffected siNoMask.verts siNoMask.mask siNoMask.invertMask = [] ∧
      (sculptRun siNoMask).cancelled = true) ∧
    sculptAffected siPlain.verts siPlain.mask siPlain.invertMask
      = siPlain.verts.filter (fun w => decide ((1 : ℚ)/2 ≤ mPlain w)) ∧
    2 ∈ sculptAffected siPlain.verts (some mPlain) true := by
  refine ⟨(C8_mask_selection siNoMask mPlain 0).1 rfl, ?_, ?_⟩
  · exact (C8_mask_selection siPlain mPlain 0).2.1 rfl rfl
  · exact ((C8_mask_selection siPlain mPlain 2).2.2.2 (by decide)
      (by rw [mPlain, half_eq_one_div_two]; norm_num)).1

/-- C9: with dynamic-topology sculpting enabled the sculpt-mode invoke
displays the error popup, returns CANCELLED, performs no other effect (no
worker start, no brush stroke, no tool-settings write), and leaves the tool
state unchanged. -/
theorem C9_dyntopo_rejected (s0 : ToolState) :
    (sculptInvoke true s0).result = InvokeResult.CANCELLED ∧
    (sculptInvoke true s0).effects =
      [InvokeEffect.displayPopup
        "Mesh fairing is not supported in dyntopo." "Report: Error" "ERROR"] ∧
    (sculptInvoke true s0).finalState = s0 := by
  exact ⟨rfl, rfl, rfl⟩

/-- C10: past the dyntopo check, the sculpt-mode invoke restores the tool
id, the unified-size flag and the brush size to their pre-invocation values
before the worker-start effect, ends with the tool state it started from,
and pushes exactly one null brush stroke. -/
theorem C10_tool_state_restored (s0 : ToolState) :
    (sculptInvoke false s0).finalState = s0 ∧
    (sculptInvoke false s0).effects =
      [InvokeEffect.toolSet "builtin_brush.Draw",
       InvokeEffect.setUseUnifiedSize false,
       InvokeEffect.setBrushSize 2147483647,
       InvokeEffect.brushStroke,
       InvokeEffect.toolSet s0.tool,
       InvokeEffect.setUseUnifiedSize s0.useUnifiedSize,
       InvokeEffect.setBrushSize s0.brushSize,
       InvokeEffect.workerStart,
       InvokeEffect.timerAdd timerInterval] ∧
    List.count InvokeEffect.brushStroke (sculptInvoke false s0).effects
      = 1 := by
  cases s0
  refine ⟨rfl, rfl, ?_⟩
  simp [sculptInvoke, List.count_cons]
